import Mathlib

/-!
Shallow embedding of `setup.py` of nvdiffrast-torch.

The file models the build-descriptor construction performed by
`make_extension(gl)` together with its helpers: the Windows compiler
locator `find_cl_path`, the flag assembly, the per-variant source file
lists, and the process-environment mutations (PATH augmentation,
`TORCH_CUDA_ARCH_LIST`, `VSCMD_SKIP_SENDTELEMETRY`, and the
`distutils._msvccompiler._get_vc_env` memoization patch).

The process environment is modelled as a partial map from variable names
to string values.  The filesystem visible to the script (glob results and
which directories contain `cl.exe`) is a parameter `FS`, so that the
behaviour of `os.system("where cl.exe")` and `glob.glob` can be stated
for a simulated filesystem.  `os.name` is the parameter `OSName`
(`posix`, `nt`, or `java`).  The Python argument `gl` is modelled as a
`PyVal` so that the `assert isinstance(gl, bool)` guard is observable.

Two pieces of instrumentation are added, with no effect on the computed
values: `make_extension` also returns the number of times the
installation-root scan `find_cl_path` was invoked, and the state of the
`_get_vc_env` routine carries a counter of how many times the
`functools.lru_cache` wrapper has been applied.
-/

namespace NvdiffrastSetup

/-- The value of `os.name` in CPython: `posix`, `nt` or `java`. -/
inductive OSName
  | posix
  | nt
  | java
deriving DecidableEq

/-- Process environment (`os.environ`): a map from names to values. -/
def EnvMap : Type := String → Option String

/-- `os.environ[k] = v`. -/
def setEnv (e : EnvMap) (k v : String) : EnvMap :=
  fun q => if q = k then some v else e q

/-- `os.environ.get(k)`. -/
def getEnv (e : EnvMap) (k : String) : Option String := e k

/-- State of `distutils._msvccompiler._get_vc_env`: whether it currently has
the `__wrapped__` marker attribute (set by `functools.lru_cache`), plus an
instrumentation counter of how many times the wrapper has been applied. -/
structure VcEnvState where
  wrapped : Bool
  applyCount : Nat
deriving DecidableEq

/-- Mutable process-wide state touched by `setup.py`: the environment and the
`_get_vc_env` routine (`none` when `import distutils._msvccompiler` fails). -/
@[ext]
structure PState where
  env : EnvMap
  vcEnv : Option VcEnvState

/-- Simulated filesystem: results of `glob.glob` for a full pattern, and
which directories (as character lists) contain `cl.exe`, which determines
the outcome of `os.system("where cl.exe")`. -/
structure FS where
  glob : String → List String
  dirHasCl : List Char → Bool

/-- A Python value passed as the `gl` argument of `make_extension`. -/
inductive PyVal
  | pybool (b : Bool)
  | pyint (n : Int)
  | pystr (s : String)
  | pynone
deriving DecidableEq

/-- `isinstance(v, bool)`. -/
def isBool : PyVal → Bool
  | .pybool _ => true
  | _ => false

/-! ### String utilities (over character lists, fully computable) -/

/-- Core of splitting a character list on `;`: the first segment paired
with the remaining segments. -/
def splitSemisCore : List Char → List Char × List (List Char)
  | [] => ([], [])
  | c :: cs =>
    let r := splitSemisCore cs
    if c = ';' then ([], r.1 :: r.2) else (c :: r.1, r.2)

/-- Split a character list on `;`, as Windows path handling does for the
`PATH` variable.  Always returns at least one segment. -/
def splitSemis (l : List Char) : List (List Char) :=
  (splitSemisCore l).1 :: (splitSemisCore l).2

/-- Whether `p` is a leading segment of `s` (character lists). -/
def leadsChars : List Char → List Char → Bool
  | [], _ => true
  | _ :: _, [] => false
  | a :: as, b :: bs => a = b && leadsChars as bs

/-- Whether `pat` occurs contiguously inside `s` (Python `pat in s`). -/
def containsChars (pat : List Char) : List Char → Bool
  | [] => leadsChars pat []
  | c :: rest => leadsChars pat (c :: rest) || containsChars pat rest

/-- The file-name component of a path: everything after the last `/` or `\`. -/
def fileNameChars (s : List Char) : List Char :=
  ((s.reverse.takeWhile (fun c => !(c = '/' || c = '\\'))).reverse)

/-- Split a file name at the last dot, like `os.path.splitext`:
returns `(stem, extension)`, extension including the dot (empty if none). -/
def splitExtChars (f : List Char) : List Char × List Char :=
  let revTail := f.reverse.takeWhile (fun c => !(c = '.'))
  if revTail.length = f.length then (f, [])
  else (f.take (f.length - revTail.length - 1), '.' :: revTail.reverse)

/-- Whether an extension is one of the two compiled-language extensions
consumed by the two compiler front-ends (`.cpp` for C++, `.cu` for CUDA). -/
def compiledExt (e : List Char) : Bool :=
  e = ".cpp".data || e = ".cu".data

/-- Whether a source list contains two entries whose paths resolve to the
same base name with different compiled-language extensions (the condition
setuptools cannot handle, per the comment above the source lists). -/
def stemCollision (l : List String) : Bool :=
  l.any fun a => l.any fun b =>
    let pa := splitExtChars (fileNameChars a.data)
    let pb := splitExtChars (fileNameChars b.data)
    pa.1 = pb.1 && !(pa.2 = pb.2) && compiledExt pa.2 && compiledExt pb.2

/-! ### Stable descending sort, as Python `sorted(xs, reverse=True)` -/

/-- Lexicographic comparison of character lists by code point: the order
Python uses to compare strings. -/
def ltChars : List Char → List Char → Bool
  | [], [] => false
  | [], _ :: _ => true
  | _ :: _, [] => false
  | a :: as, b :: bs => if a = b then ltChars as bs else decide (a < b)

/-- Insert `x` into a descending-sorted list, after any element not
strictly below it (so later-arriving equal elements come later: the stable
placement used by Python's sort). -/
def insertDesc (x : String) : List String → List String
  | [] => [x]
  | y :: ys => if ltChars y.data x.data then x :: y :: ys else y :: insertDesc x ys

/-- `sorted(l, reverse=True)`: stable descending sort. -/
def sortDesc (l : List String) : List String :=
  l.foldl (fun acc x => insertDesc x acc) []

/-! ### The compiler locator (`find_cl_path`, setup.py lines 23-30) -/

/-- The Visual Studio editions scanned, in the source's fixed order. -/
def editions : List String :=
  ["Enterprise", "Professional", "BuildTools", "Community"]

/-- The glob pattern suffix for one edition (raw string of line 26). -/
def vs_relative_path (edition : String) : String :=
  "\\Microsoft Visual Studio\\*\\" ++ edition ++ "\\VC\\Tools\\MSVC\\*\\bin\\Hostx64\\x64"

/-- Candidate directories for one edition: the sorted (reverse) glob under
`C:\Program Files` concatenated with the sorted glob under
`C:\Program Files (x86)` (lines 27-28). -/
def edition_paths (fs : FS) (edition : String) : List String :=
  sortDesc (fs.glob ("C:\\Program Files" ++ vs_relative_path edition)) ++
    sortDesc (fs.glob ("C:\\Program Files (x86)" ++ vs_relative_path edition))

/-- `find_cl_path()`: the first edition, in order, whose candidate list is
nonempty yields its first candidate; `None` otherwise. -/
def find_cl_path (fs : FS) : Option String :=
  (editions.filterMap (fun e => (edition_paths fs e).head?)).head?

/-- Outcome of `os.system("where cl.exe")` being zero: some directory on
the `PATH` environment variable contains `cl.exe`. -/
def where_cl (fs : FS) (e : EnvMap) : Bool :=
  (splitSemis ((getEnv e "PATH").getD "").data).any fs.dirHasCl

/-! ### Flag assembly (setup.py lines 39-49) -/

/-- Compile flags, one list per compiler front-end
(`extra_compile_args={"cxx": ..., "nvcc": ...}`). -/
structure CompileFlagSet where
  cxx : List String
  nvcc : List String
deriving DecidableEq

/-- The shared compiler options (line 40). -/
def opts : List String := ["-DNVDR_TORCH"]

/-- The bundled library directory (line 22):
`os.path.dirname(__file__) + r"\..\lib"`. -/
def libDirOf (dirname : String) : String := dirname ++ "\\..\\lib"

/-- Linker flags (lines 43-49): empty unless `gl`; `-lGL -lEGL` on posix;
`/LIBPATH` plus four `/DEFAULTLIB` entries on nt. -/
def link_flags (gl : Bool) (osn : OSName) (lib_dir : String) : List String :=
  if gl then
    match osn with
    | .posix => ["-lGL", "-lEGL"]
    | .nt =>
      ["/LIBPATH:" ++ lib_dir] ++
        (["gdi32", "opengl32", "user32", "setgpu"].map (fun x => "/DEFAULTLIB:" ++ x))
    | .java => []
  else []

/-- The pure flag assembly: compile flags (cxx gets `opts`, nvcc gets
`opts + ['-lineinfo']`, line 110) and linker flags. -/
def assemble_flags (gl : Bool) (osn : OSName) (lib_dir : String) :
    CompileFlagSet × List String :=
  (⟨opts, opts ++ ["-lineinfo"]⟩, link_flags gl osn lib_dir)

/-! ### Source lists (setup.py lines 53-78) -/

/-- The per-variant source file lists, verbatim from the source. -/
def source_files (gl : Bool) : List String :=
  if gl then
    ["../common/common.cpp",
     "../common/glutil.cpp",
     "../common/rasterize_gl.cpp",
     "torch_bindings_gl.cpp",
     "torch_rasterize_gl.cpp"]
  else
    ["../common/cudaraster/impl/Buffer.cpp",
     "../common/cudaraster/impl/CudaRaster.cpp",
     "../common/cudaraster/impl/RasterImpl_kernel.cu",
     "../common/cudaraster/impl/RasterImpl.cpp",
     "../common/common.cpp",
     "../common/rasterize.cu",
     "../common/interpolate.cu",
     "../common/texture_kernel.cu",
     "../common/texture.cpp",
     "../common/antialias.cu",
     "torch_bindings.cpp",
     "torch_rasterize.cpp",
     "torch_interpolate.cpp",
     "torch_texture.cpp",
     "torch_antialias.cpp"]

/-- `os.path.join("nvdiffrast/torch", fn)` with the platform separator. -/
def joinSrc (osn : OSName) (fn : String) : String :=
  "nvdiffrast/torch" ++ (if osn = .nt then "\\" else "/") ++ fn

/-! ### Environment hazard guard (setup.py lines 81-102) -/

/-- The fixed GPU-architecture target list written on line 81. -/
def archList : String := "8.0 8.6 8.7 8.9 9.0"

/-- The warning text of line 85. -/
def glewWarning : String :=
  "Warning: libGLEW is being loaded via LD_PRELOAD, and will probably conflict with the OpenGL plugin"

/-- Lines 81-102 of the source: set `TORCH_CUDA_ARCH_LIST`; warn if the GL
variant is built on posix with `libGLEW` in `LD_PRELOAD`; on nt set
`VSCMD_SKIP_SENDTELEMETRY` and wrap `_get_vc_env` with `lru_cache` unless
the `__wrapped__` marker is already present (silently skipped when the
module cannot be loaded). -/
def check_and_mitigate (gl : Bool) (osn : OSName) (s : PState) :
    PState × List String :=
  let env1 := setEnv s.env "TORCH_CUDA_ARCH_LIST" archList
  let warns :=
    if gl && decide (osn = .posix) &&
        containsChars "libGLEW".data ((getEnv env1 "LD_PRELOAD").getD "").data then
      [glewWarning]
    else []
  if osn = .nt then
    let env2 := setEnv env1 "VSCMD_SKIP_SENDTELEMETRY" "1"
    let vc :=
      match s.vcEnv with
      | none => none
      | some st => if st.wrapped then some st else some ⟨true, st.applyCount + 1⟩
    (⟨env2, vc⟩, warns)
  else
    (⟨env1, s.vcEnv⟩, warns)

/-! ### Descriptor and `make_extension` (setup.py lines 17-112) -/

/-- The `CUDAExtension` call's arguments (lines 106-111). -/
structure ExtensionDescriptor where
  name : String
  sources : List String
  extra_link_args : List String
  cxx_flags : List String
  nvcc_flags : List String
deriving DecidableEq

/-- Errors that abort `make_extension`: the failed `assert isinstance`,
the `RuntimeError` of line 36, and the `KeyError` Python would raise on
`os.environ['PATH'] +=` with `PATH` unset. -/
inductive BuildError
  | assertionError
  | toolchainNotFound
  | keyError
deriving DecidableEq

/-- Lines 21-37: on nt, if `cl.exe` is not reachable from `PATH`, scan the
installation roots; fail if nothing is found, else append the found
directory to `PATH`.  The `Nat` counts invocations of the scan. -/
def locate_toolchain (osn : OSName) (fs : FS) (s : PState) :
    Except BuildError PState × Nat :=
  if osn = .nt then
    if where_cl fs s.env then (.ok s, 0)
    else
      match find_cl_path fs with
      | none => (.error .toolchainNotFound, 1)
      | some p =>
        match getEnv s.env "PATH" with
        | none => (.error .keyError, 1)
        | some v => (.ok ⟨setEnv s.env "PATH" (v ++ (";" ++ p)), s.vcEnv⟩, 1)
  else (.ok s, 0)

/-- `make_extension(gl)` (lines 17-112), over the simulated filesystem and
process state.  Returns the descriptor (or the propagated error), the
resulting process state, and the number of installation-root scans
performed. -/
def make_extension (osn : OSName) (fs : FS) (dirname : String) (gl : PyVal)
    (s : PState) : Except BuildError ExtensionDescriptor × PState × Nat :=
  match gl with
  | .pybool b =>
    match locate_toolchain osn fs s with
    | (.error e, n) => (.error e, s, n)
    | (.ok s1, n) =>
      let lib_dir := libDirOf dirname
      let flags := assemble_flags b osn lib_dir
      let s2 := (check_and_mitigate b osn s1).1
      let plugin_name := "nvdiffrast_plugin" ++ (if b then "_gl" else "")
      let source_paths := (source_files b).map (joinSrc osn)
      (.ok ⟨plugin_name, source_paths, flags.2, flags.1.cxx, flags.1.nvcc⟩, s2, n)
  | _ => (.error .assertionError, s, 0)

/-! ### Basic lemmas about the environment map -/

theorem getEnv_setEnv_self (e : EnvMap) (k v : String) :
    getEnv (setEnv e k v) k = some v := by
  simp [getEnv, setEnv]

theorem getEnv_setEnv_of_ne (e : EnvMap) (k v q : String) (h : q ≠ k) :
    getEnv (setEnv e k v) q = getEnv e q := by
  simp [getEnv, setEnv, h]

theorem isSome_getEnv_setEnv (e : EnvMap) (k v q : String)
    (h : (getEnv e q).isSome = true) : (getEnv (setEnv e k v) q).isSome = true := by
  by_cases hq : q = k
  · subst hq; simp [getEnv, setEnv]
  · rwa [getEnv_setEnv_of_ne e k v q hq]

theorem setEnv_setEnv_self (e : EnvMap) (k v : String) :
    setEnv (setEnv e k v) k v = setEnv e k v := by
  funext q
  simp only [setEnv]
  split <;> rfl

/-! ### Lemmas about the stable descending sort -/

theorem mem_insertDesc {x y : String} {l : List String} :
    x ∈ insertDesc y l ↔ x = y ∨ x ∈ l := by
  induction l with
  | nil => simp [insertDesc]
  | cons z zs ih =>
    simp only [insertDesc]
    split
    · simp
    · simp [ih]
      tauto

theorem mem_sortDesc_aux (x : String) (l acc : List String) :
    x ∈ List.foldl (fun acc y => insertDesc y acc) acc l ↔ x ∈ acc ∨ x ∈ l := by
  induction l generalizing acc with
  | nil => simp
  | cons y ys ih =>
    simp only [List.foldl_cons, ih, mem_insertDesc, List.mem_cons]
    tauto

theorem mem_sortDesc {x : String} {l : List String} :
    x ∈ sortDesc l ↔ x ∈ l := by
  simp [sortDesc, mem_sortDesc_aux]

theorem sortDesc_ne_nil {l : List String} (h : l ≠ []) : sortDesc l ≠ [] := by
  rcases l with _ | ⟨a, as⟩
  · exact absurd rfl h
  · exact List.ne_nil_of_mem (mem_sortDesc.mpr (List.mem_cons_self a as))

theorem head?_mem {α : Type} {l : List α} {x : α} (h : l.head? = some x) : x ∈ l := by
  rcases l with _ | ⟨a, as⟩
  · simp at h
  · simp at h
    simp [h]

/-! ### The shape of a successfully produced descriptor -/

theorem make_extension_ok_shape (osn : OSName) (fs : FS) (dn : String) (b : Bool)
    (s : PState) (d : ExtensionDescriptor) (s' : PState) (n : Nat)
    (h : make_extension osn fs dn (.pybool b) s = (.ok d, s', n)) :
    d = ⟨"nvdiffrast_plugin" ++ (if b then "_gl" else ""),
         (source_files b).map (joinSrc osn),
         link_flags b osn (libDirOf dn),
         opts, opts ++ ["-lineinfo"]⟩ := by
  unfold make_extension at h
  rcases hl : locate_toolchain osn fs s with ⟨r, m⟩
  rw [hl] at h
  cases r with
  | error e => simp at h
  | ok s1 =>
    simp only [assemble_flags, Prod.mk.injEq, Except.ok.injEq] at h
    exact h.1.symm

/-- A concrete filesystem with no installation roots and no `cl.exe`. -/
def fsEmpty : FS := ⟨fun _ => [], fun _ => false⟩

/-- A concrete starting environment with `PATH` and a user-supplied
`TORCH_CUDA_ARCH_LIST`. -/
def env0 : EnvMap := fun k =>
  if k = "PATH" then some "C:\\W"
  else if k = "TORCH_CUDA_ARCH_LIST" then some "7.5"
  else none

/-- A concrete starting process state. -/
def s0 : PState := ⟨env0, some ⟨false, 0⟩⟩

/-- The descriptor produced for the rasterizer-only variant on posix. -/
def dRasterPosix : ExtensionDescriptor :=
  ⟨"nvdiffrast_plugin", (source_files false).map (joinSrc .posix), [],
   opts, opts ++ ["-lineinfo"]⟩

set_option maxRecDepth 8000

/-- C1: for every variant, the resolved source file list contains no two
entries whose paths resolve to the same base name with different
compiled-language extensions, and the rasterizer-only variant lists the
two GPU-kernel files that would collide under the renamed paths
`texture_kernel.cu` and `RasterImpl_kernel.cu`. -/
theorem sources_no_stem_collision (osn : OSName) (fs : FS) (dn : String) (b : Bool)
    (s : PState) (d : ExtensionDescriptor) (s' : PState) (n : Nat)
    (h : make_extension osn fs dn (.pybool b) s = (.ok d, s', n)) :
    stemCollision d.sources = false ∧
    (b = false →
      joinSrc osn "../common/texture_kernel.cu" ∈ d.sources ∧
      joinSrc osn "../common/cudaraster/impl/RasterImpl_kernel.cu" ∈ d.sources) := by
  obtain rfl := make_extension_ok_shape osn fs dn b s d s' n h
  constructor
  · show stemCollision ((source_files b).map (joinSrc osn)) = false
    cases osn <;> cases b <;> decide
  · intro hb
    subst hb
    refine ⟨?_, ?_⟩
    · show joinSrc osn "../common/texture_kernel.cu" ∈ (source_files false).map (joinSrc osn)
      cases osn <;> decide
    · show joinSrc osn "../common/cudaraster/impl/RasterImpl_kernel.cu" ∈
        (source_files false).map (joinSrc osn)
      cases osn <;> decide

/-- Witness for C1 at a concrete successful build. -/
theorem sources_no_stem_collision_witness :
    stemCollision dRasterPosix.sources = false ∧
    (false = false →
      joinSrc .posix "../common/texture_kernel.cu" ∈ dRasterPosix.sources ∧
      joinSrc .posix "../common/cudaraster/impl/RasterImpl_kernel.cu" ∈ dRasterPosix.sources) :=
  sources_no_stem_collision .posix fsEmpty "d" false s0 dRasterPosix
    (make_extension .posix fsEmpty "d" (.pybool false) s0).2.1 0 rfl

/-- C5: the rasterizer-only variant's descriptor has an empty link-flag
set on every operating system. -/
theorem raster_only_empty_link_flags (osn : OSName) (fs : FS) (dn : String)
    (s : PState) (d : ExtensionDescriptor) (s' : PState) (n : Nat)
    (h : make_extension osn fs dn (.pybool false) s = (.ok d, s', n)) :
    d.extra_link_args = [] := by
  obtain rfl := make_extension_ok_shape osn fs dn false s d s' n h
  rfl

/-- Witness for C5 at a concrete successful build. -/
theorem raster_only_empty_link_flags_witness : dRasterPosix.extra_link_args = [] :=
  raster_only_empty_link_flags .posix fsEmpty "d" s0 dRasterPosix
    (make_extension .posix fsEmpty "d" (.pybool false) s0).2.1 0 rfl

/-- A concrete filesystem with no installation roots but with `cl.exe`
present in the directory `C:\W` named by `env0`'s `PATH`. -/
def fsCl : FS := ⟨fun _ => [], fun d => decide (d = "C:\\W".data)⟩

/-- The descriptor produced for the windowing-enabled variant on posix. -/
def dGLposix : ExtensionDescriptor :=
  ⟨"nvdiffrast_plugin_gl", (source_files true).map (joinSrc .posix),
   ["-lGL", "-lEGL"], opts, opts ++ ["-lineinfo"]⟩

/-- The descriptor produced for the windowing-enabled variant on nt with
`__file__` directory `"d"`. -/
def dGLnt : ExtensionDescriptor :=
  ⟨"nvdiffrast_plugin_gl", (source_files true).map (joinSrc .nt),
   link_flags true .nt (libDirOf "d"), opts, opts ++ ["-lineinfo"]⟩

/-- C6: the windowing-enabled variant links exactly `GL` and `EGL` on
posix, with no library-search-path entry, and exactly the four system
libraries plus the one `/LIBPATH` entry for the bundled library directory
on nt. -/
theorem gl_link_flags_exact (fs fs2 : FS) (dn dn2 : String) (s s2 : PState)
    (d d2 : ExtensionDescriptor) (s' s2' : PState) (n n2 : Nat)
    (hp : make_extension .posix fs dn (.pybool true) s = (.ok d, s', n))
    (hw : make_extension .nt fs2 dn2 (.pybool true) s2 = (.ok d2, s2', n2)) :
    (d.extra_link_args = ["-lGL", "-lEGL"] ∧
      ∀ x ∈ d.extra_link_args, leadsChars "/LIBPATH:".data x.data = false) ∧
    d2.extra_link_args =
      ["/LIBPATH:" ++ libDirOf dn2, "/DEFAULTLIB:gdi32", "/DEFAULTLIB:opengl32",
       "/DEFAULTLIB:user32", "/DEFAULTLIB:setgpu"] := by
  obtain rfl := make_extension_ok_shape .posix fs dn true s d s' n hp
  obtain rfl := make_extension_ok_shape .nt fs2 dn2 true s2 d2 s2' n2 hw
  refine ⟨⟨rfl, ?_⟩, ?_⟩
  · show ∀ x ∈ (["-lGL", "-lEGL"] : List String),
      leadsChars "/LIBPATH:".data x.data = false
    decide
  · show link_flags true .nt (libDirOf dn2) = _
    rfl

/-- Witness for C6 at concrete successful posix and nt builds. -/
theorem gl_link_flags_exact_witness :
    (dGLposix.extra_link_args = ["-lGL", "-lEGL"] ∧
      ∀ x ∈ dGLposix.extra_link_args, leadsChars "/LIBPATH:".data x.data = false) ∧
    dGLnt.extra_link_args =
      ["/LIBPATH:" ++ libDirOf "d", "/DEFAULTLIB:gdi32", "/DEFAULTLIB:opengl32",
       "/DEFAULTLIB:user32", "/DEFAULTLIB:setgpu"] :=
  gl_link_flags_exact fsEmpty fsCl "d" "d" s0 s0 dGLposix dGLnt
    (make_extension .posix fsEmpty "d" (.pybool true) s0).2.1
    (make_extension .nt fsCl "d" (.pybool true) s0).2.1 0 0 rfl rfl

/-- C8: flag assembly is deterministic and pure: two successful builds of
the same variant on the same operating system yield identical compile-flag
and link-flag sets, regardless of filesystem or process state, and those
sets are exactly the output of the pure function `assemble_flags`. -/
theorem assemble_flags_pure_deterministic (osn : OSName) (fs ft : FS) (dn : String)
    (b : Bool) (s t : PState) (d1 d2 : ExtensionDescriptor) (s1 t1 : PState)
    (n1 n2 : Nat)
    (h1 : make_extension osn fs dn (.pybool b) s = (.ok d1, s1, n1))
    (h2 : make_extension osn ft dn (.pybool b) t = (.ok d2, t1, n2)) :
    (d1.cxx_flags = d2.cxx_flags ∧ d1.nvcc_flags = d2.nvcc_flags ∧
      d1.extra_link_args = d2.extra_link_args) ∧
    (d1.cxx_flags = (assemble_flags b osn (libDirOf dn)).1.cxx ∧
     d1.nvcc_flags = (assemble_flags b osn (libDirOf dn)).1.nvcc ∧
     d1.extra_link_args = (assemble_flags b osn (libDirOf dn)).2) := by
  obtain rfl := make_extension_ok_shape osn fs dn b s d1 s1 n1 h1
  obtain rfl := make_extension_ok_shape osn ft dn b t d2 t1 n2 h2
  exact ⟨⟨rfl, rfl, rfl⟩, rfl, rfl, rfl⟩

/-- A second concrete starting state with a different environment, used to
exhibit flag determinism across distinct process states. -/
def sAlt : PState := ⟨fun k => if k = "LD_PRELOAD" then some "libGLEW.so" else none, none⟩

/-- Witness for C8 at two concrete successful builds differing in
filesystem and starting state. -/
theorem assemble_flags_pure_deterministic_witness :
    (dRasterPosix.cxx_flags = dRasterPosix.cxx_flags ∧
      dRasterPosix.nvcc_flags = dRasterPosix.nvcc_flags ∧
      dRasterPosix.extra_link_args = dRasterPosix.extra_link_args) ∧
    (dRasterPosix.cxx_flags = (assemble_flags false .posix (libDirOf "d")).1.cxx ∧
     dRasterPosix.nvcc_flags = (assemble_flags false .posix (libDirOf "d")).1.nvcc ∧
     dRasterPosix.extra_link_args = (assemble_flags false .posix (libDirOf "d")).2) :=
  assemble_flags_pure_deterministic .posix fsEmpty fsCl "d" false s0 sAlt
    dRasterPosix dRasterPosix
    (make_extension .posix fsEmpty "d" (.pybool false) s0).2.1
    (make_extension .posix fsCl "d" (.pybool false) sAlt).2.1 0 0 rfl rfl

/-- C3: on nt, when `cl.exe` is not reachable from `PATH` and the scan of
every installation root yields no candidate, `make_extension` fails with
the fatal `RuntimeError` (`toolchainNotFound`), returning no descriptor
and leaving the state unchanged. -/
theorem nt_toolchain_not_found (fs : FS) (dn : String) (b : Bool) (s : PState)
    (hcl : where_cl fs s.env = false)
    (hfind : find_cl_path fs = none) :
    make_extension .nt fs dn (.pybool b) s = (.error .toolchainNotFound, s, 1) := by
  unfold make_extension locate_toolchain
  simp [hcl, hfind]

/-- Witness for C3 at a concrete empty filesystem. -/
theorem nt_toolchain_not_found_witness :
    make_extension .nt fsEmpty "d" (.pybool true) s0 =
      (.error .toolchainNotFound, s0, 1) :=
  nt_toolchain_not_found fsEmpty "d" true s0 (by decide) (by decide)

/-- C10: for every non-boolean input the build fails immediately with an
assertion error, before any filesystem scan or environment mutation, and a
descriptor is produced only for boolean variant values. -/
theorem assert_requires_bool (osn : OSName) (fs : FS) (dn : String) (v : PyVal)
    (s : PState) :
    ((∀ b, v ≠ .pybool b) →
      make_extension osn fs dn v s = (.error .assertionError, s, 0)) ∧
    (∀ d s' n, make_extension osn fs dn v s = (.ok d, s', n) → ∃ b, v = .pybool b) := by
  constructor
  · intro hv
    cases v with
    | pybool b => exact absurd rfl (hv b)
    | pyint n => rfl
    | pystr t => rfl
    | pynone => rfl
  · intro d s' n h
    cases v with
    | pybool b => exact ⟨b, rfl⟩
    | pyint m => simp [make_extension] at h
    | pystr t => simp [make_extension] at h
    | pynone => simp [make_extension] at h

/-- Witness for C10 at the concrete non-boolean input `3`. -/
theorem assert_requires_bool_witness :
    make_extension .posix fsEmpty "d" (.pyint 3) s0 =
      (.error .assertionError, s0, 0) :=
  (assert_requires_bool .posix fsEmpty "d" (.pyint 3) s0).1
    (fun _ h => PyVal.noConfusion h)

/-! ### Shape of the state after the locator and the hazard guard -/

theorem setEnv_twice_pair (e : EnvMap) (k1 v1 k2 v2 : String) :
    setEnv (setEnv (setEnv (setEnv e k1 v1) k2 v2) k1 v1) k2 v2 =
      setEnv (setEnv e k1 v1) k2 v2 := by
  funext q
  by_cases h2 : q = k2 <;> by_cases h1 : q = k1 <;> simp [setEnv, h1, h2]

theorem mitigate_env_shape (b : Bool) (osn : OSName) (s : PState) :
    ((check_and_mitigate b osn s).1).env =
        setEnv s.env "TORCH_CUDA_ARCH_LIST" archList ∨
    ((check_and_mitigate b osn s).1).env =
      setEnv (setEnv s.env "TORCH_CUDA_ARCH_LIST" archList)
        "VSCMD_SKIP_SENDTELEMETRY" "1" := by
  cases osn
  · exact .inl rfl
  · exact .inr rfl
  · exact .inl rfl

theorem mitigate_path (b : Bool) (osn : OSName) (s : PState) :
    getEnv ((check_and_mitigate b osn s).1).env "PATH" = getEnv s.env "PATH" := by
  rcases mitigate_env_shape b osn s with h | h <;> rw [h]
  · exact getEnv_setEnv_of_ne _ _ _ _ (by decide)
  · rw [getEnv_setEnv_of_ne _ _ _ _ (by decide)]
    exact getEnv_setEnv_of_ne _ _ _ _ (by decide)

theorem mitigate_arch (b : Bool) (osn : OSName) (s : PState) :
    getEnv ((check_and_mitigate b osn s).1).env "TORCH_CUDA_ARCH_LIST" =
      some archList := by
  rcases mitigate_env_shape b osn s with h | h <;> rw [h]
  · exact getEnv_setEnv_self _ _ _
  · rw [getEnv_setEnv_of_ne _ _ _ _ (by decide)]
    exact getEnv_setEnv_self _ _ _

theorem mitigate_isSome (b : Bool) (osn : OSName) (s : PState) (k : String)
    (h : (getEnv s.env k).isSome = true) :
    (getEnv ((check_and_mitigate b osn s).1).env k).isSome = true := by
  rcases mitigate_env_shape b osn s with hm | hm <;> rw [hm]
  · exact isSome_getEnv_setEnv _ _ _ _ h
  · exact isSome_getEnv_setEnv _ _ _ _ (isSome_getEnv_setEnv _ _ _ _ h)

/-- C7: running the hazard-guard mitigations twice leaves the process
state (environment and the patched `_get_vc_env` routine) identical to
running them once, and the memoizing wrapper is applied at most once,
guarded by the `__wrapped__` marker. -/
theorem check_and_mitigate_idempotent (gl : Bool) (osn : OSName) (s : PState) :
    (check_and_mitigate gl osn (check_and_mitigate gl osn s).1).1 =
      (check_and_mitigate gl osn s).1 ∧
    (∀ st, s.vcEnv = some st →
      ∃ st', ((check_and_mitigate gl osn (check_and_mitigate gl osn s).1).1).vcEnv =
          some st' ∧ st'.applyCount ≤ st.applyCount + 1) := by
  constructor
  · cases osn
    case posix =>
      apply PState.ext
      · exact setEnv_setEnv_self _ _ _
      · rfl
    case java =>
      apply PState.ext
      · exact setEnv_setEnv_self _ _ _
      · rfl
    case nt =>
      apply PState.ext
      · exact setEnv_twice_pair _ _ _ _ _
      · show (match (match s.vcEnv with
          | none => none
          | some st => if st.wrapped then some st else some ⟨true, st.applyCount + 1⟩) with
          | none => none
          | some st => if st.wrapped then some st else some ⟨true, st.applyCount + 1⟩) =
          (match s.vcEnv with
          | none => none
          | some st => if st.wrapped then some st else some ⟨true, st.applyCount + 1⟩)
        rcases s.vcEnv with _ | ⟨w, c⟩
        · rfl
        · cases w <;> rfl
  · intro st hst
    cases osn
    case posix => exact ⟨st, by simp [check_and_mitigate, hst], Nat.le_succ _⟩
    case java => exact ⟨st, by simp [check_and_mitigate, hst], Nat.le_succ _⟩
    case nt =>
      rcases st with ⟨w, c⟩
      cases w
      · refine ⟨⟨true, c + 1⟩, ?_, le_refl _⟩
        show (match (match s.vcEnv with
          | none => none
          | some st => if st.wrapped then some st else some ⟨true, st.applyCount + 1⟩) with
          | none => none
          | some st => if st.wrapped then some st else some ⟨true, st.applyCount + 1⟩) =
          some ⟨true, c + 1⟩
        rw [hst]
        rfl
      · refine ⟨⟨true, c⟩, ?_, Nat.le_succ _⟩
        show (match (match s.vcEnv with
          | none => none
          | some st => if st.wrapped then some st else some ⟨true, st.applyCount + 1⟩) with
          | none => none
          | some st => if st.wrapped then some st else some ⟨true, st.applyCount + 1⟩) =
          some ⟨true, c⟩
        rw [hst]
        rfl

/-- Witness for C7 at a concrete unwrapped starting state. -/
theorem check_and_mitigate_idempotent_witness :
    (check_and_mitigate true .nt (check_and_mitigate true .nt s0).1).1 =
      (check_and_mitigate true .nt s0).1 ∧
    ∃ st', ((check_and_mitigate true .nt (check_and_mitigate true .nt s0).1).1).vcEnv =
        some st' ∧ st'.applyCount ≤ (0 : Nat) + 1 :=
  ⟨(check_and_mitigate_idempotent true .nt s0).1,
   (check_and_mitigate_idempotent true .nt s0).2 ⟨false, 0⟩ rfl⟩

/-! ### Case analysis of the toolchain locator -/

theorem locate_toolchain_not_nt (osn : OSName) (fs : FS) (s : PState)
    (h : ¬ osn = .nt) : locate_toolchain osn fs s = (.ok s, 0) := by
  unfold locate_toolchain
  rw [if_neg h]

theorem locate_toolchain_on_path (fs : FS) (s : PState)
    (h : where_cl fs s.env = true) : locate_toolchain .nt fs s = (.ok s, 0) := by
  unfold locate_toolchain
  rw [if_pos rfl, if_pos h]

theorem locate_toolchain_nt_ok (fs : FS) (s s1 : PState) (m : Nat)
    (h : locate_toolchain .nt fs s = (.ok s1, m)) :
    (where_cl fs s.env = true ∧ s1 = s ∧ m = 0) ∨
    (∃ p w, find_cl_path fs = some p ∧ getEnv s.env "PATH" = some w ∧
      s1 = ⟨setEnv s.env "PATH" (w ++ (";" ++ p)), s.vcEnv⟩ ∧ m = 1) := by
  unfold locate_toolchain at h
  rw [if_pos rfl] at h
  by_cases hcl : where_cl fs s.env = true
  · rw [if_pos hcl] at h
    simp only [Prod.mk.injEq, Except.ok.injEq] at h
    exact .inl ⟨hcl, h.1.symm, h.2.symm⟩
  · rw [if_neg hcl] at h
    rcases hf : find_cl_path fs with _ | p
    · rw [hf] at h
      simp at h
    · rw [hf] at h
      rcases hw : getEnv s.env "PATH" with _ | w
      · rw [hw] at h
        simp at h
      · rw [hw] at h
        simp only [Prod.mk.injEq, Except.ok.injEq] at h
        exact .inr ⟨p, w, rfl, rfl, h.1.symm, h.2.symm⟩

theorem locate_toolchain_count_le (osn : OSName) (fs : FS) (s : PState) :
    (locate_toolchain osn fs s).2 ≤ 1 := by
  unfold locate_toolchain
  split
  · split
    · exact Nat.zero_le 1
    · rcases find_cl_path fs with _ | p
      · exact le_refl 1
      · rcases getEnv s.env "PATH" with _ | w
        · exact le_refl 1
        · exact le_refl 1
  · exact Nat.zero_le 1

/-! ### Shape of the result of `make_extension` -/

theorem make_extension_ok_state (osn : OSName) (fs : FS) (dn : String) (b : Bool)
    (s : PState) (d : ExtensionDescriptor) (s' : PState) (n : Nat)
    (h : make_extension osn fs dn (.pybool b) s = (.ok d, s', n)) :
    ∃ s1 m, locate_toolchain osn fs s = (.ok s1, m) ∧
      s' = (check_and_mitigate b osn s1).1 ∧ n = m := by
  unfold make_extension at h
  rcases hl : locate_toolchain osn fs s with ⟨r, m⟩
  rw [hl] at h
  cases r with
  | error e => simp at h
  | ok s1 =>
    simp only [Prod.mk.injEq, Except.ok.injEq] at h
    exact ⟨s1, m, rfl, h.2.1.symm, h.2.2.symm⟩

theorem make_extension_state_cases (osn : OSName) (fs : FS) (dn : String)
    (v : PyVal) (s : PState) :
    (make_extension osn fs dn v s).2.1 = s ∨
    ∃ b s1 m, v = .pybool b ∧ locate_toolchain osn fs s = (.ok s1, m) ∧
      (make_extension osn fs dn v s).2.1 = (check_and_mitigate b osn s1).1 := by
  cases v with
  | pybool b =>
    rcases hl : locate_toolchain osn fs s with ⟨r, m⟩
    cases r with
    | error e =>
      left
      unfold make_extension
      rw [hl]
    | ok s1 =>
      right
      exact ⟨b, s1, m, rfl, rfl, by unfold make_extension; rw [hl]⟩
  | pyint n => exact .inl rfl
  | pystr t => exact .inl rfl
  | pynone => exact .inl rfl

theorem make_extension_count_bool (osn : OSName) (fs : FS) (dn : String) (b : Bool)
    (s : PState) :
    (make_extension osn fs dn (.pybool b) s).2.2 = (locate_toolchain osn fs s).2 := by
  unfold make_extension
  rcases hl : locate_toolchain osn fs s with ⟨r, m⟩
  cases r <;> rfl

/-! ### C4: monotonicity of environment mutations -/

/-- Counterexample to C4 as stated: a user-supplied
`TORCH_CUDA_ARCH_LIST` value (`"7.5"` in `s0`) is replaced by the fixed
constant during a successful build, so not every mutation preserves
user-supplied values. -/
theorem arch_list_user_value_replaced :
    getEnv s0.env "TORCH_CUDA_ARCH_LIST" = some "7.5" ∧
    getEnv (make_extension .posix fsEmpty "d" (.pybool false) s0).2.1.env
        "TORCH_CUDA_ARCH_LIST" = some archList ∧
    archList ≠ "7.5" :=
  ⟨rfl, rfl, by decide⟩

/-- C4 (amended): environment mutations only add or set values — no
variable is ever removed, and the search-path mutation only appends to the
user's existing `PATH` value — but the GPU-architecture target list (and
likewise the telemetry flag) is set to a fixed constant, which replaces
any user-supplied value for that variable. -/
theorem env_mutations_add_or_set (osn : OSName) (fs : FS) (dn : String) (v : PyVal)
    (s : PState) :
    (∀ k, (getEnv s.env k).isSome = true →
      (getEnv (make_extension osn fs dn v s).2.1.env k).isSome = true) ∧
    (∀ w, getEnv s.env "PATH" = some w →
      ∃ t, getEnv (make_extension osn fs dn v s).2.1.env "PATH" = some (w ++ t)) ∧
    (∀ d s' n, make_extension osn fs dn v s = (.ok d, s', n) →
      getEnv s'.env "TORCH_CUDA_ARCH_LIST" = some archList) := by
  refine ⟨?_, ?_, ?_⟩
  · intro k hk
    rcases make_extension_state_cases osn fs dn v s with hs | ⟨b, s1, m, hv, hl, hs⟩
    · rw [hs]
      exact hk
    · rw [hs]
      apply mitigate_isSome
      cases osn with
      | nt =>
        rcases locate_toolchain_nt_ok fs s s1 m hl with ⟨_, rfl, _⟩ | ⟨p, w, _, _, rfl, _⟩
        · exact hk
        · exact isSome_getEnv_setEnv _ _ _ _ hk
      | posix =>
        rw [locate_toolchain_not_nt .posix fs s (by simp)] at hl
        simp only [Prod.mk.injEq, Except.ok.injEq] at hl
        rw [← hl.1]
        exact hk
      | java =>
        rw [locate_toolchain_not_nt .java fs s (by simp)] at hl
        simp only [Prod.mk.injEq, Except.ok.injEq] at hl
        rw [← hl.1]
        exact hk
  · intro w hw
    rcases make_extension_state_cases osn fs dn v s with hs | ⟨b, s1, m, hv, hl, hs⟩
    · rw [hs]
      exact ⟨"", by rw [String.append_empty]; exact hw⟩
    · rw [hs, mitigate_path]
      cases osn with
      | nt =>
        rcases locate_toolchain_nt_ok fs s s1 m hl with ⟨_, rfl, _⟩ | ⟨p, w', _, hw', rfl, _⟩
        · exact ⟨"", by rw [String.append_empty]; exact hw⟩
        · refine ⟨";" ++ p, ?_⟩
          show getEnv (setEnv s.env "PATH" (w' ++ (";" ++ p))) "PATH" = some (w ++ (";" ++ p))
          rw [getEnv_setEnv_self]
          rw [hw] at hw'
          rw [Option.some_inj.mp hw']
      | posix =>
        rw [locate_toolchain_not_nt .posix fs s (by simp)] at hl
        simp only [Prod.mk.injEq, Except.ok.injEq] at hl
        rw [← hl.1]
        exact ⟨"", by rw [String.append_empty]; exact hw⟩
      | java =>
        rw [locate_toolchain_not_nt .java fs s (by simp)] at hl
        simp only [Prod.mk.injEq, Except.ok.injEq] at hl
        rw [← hl.1]
        exact ⟨"", by rw [String.append_empty]; exact hw⟩
  · intro d s' n h
    rcases v with b | m | t | _
    · obtain ⟨s1, m, hl, hs, _⟩ := make_extension_ok_state osn fs dn b s d s' n h
      rw [hs]
      exact mitigate_arch _ _ _
    · simp [make_extension] at h
    · simp [make_extension] at h
    · simp [make_extension] at h

/-- Witness for C4's amended claim at a concrete build: the value of
`PATH` is preserved (appended with the empty suffix on posix) and the
architecture list is set. -/
theorem env_mutations_add_or_set_witness :
    (getEnv (make_extension .posix fsEmpty "d" (.pybool false) s0).2.1.env
        "PATH").isSome = true ∧
    (∃ t, getEnv (make_extension .posix fsEmpty "d" (.pybool false) s0).2.1.env
        "PATH" = some ("C:\\W" ++ t)) ∧
    getEnv (make_extension .posix fsEmpty "d" (.pybool false) s0).2.1.env
        "TORCH_CUDA_ARCH_LIST" = some archList :=
  ⟨(env_mutations_add_or_set .posix fsEmpty "d" (.pybool false) s0).1 "PATH" rfl,
   (env_mutations_add_or_set .posix fsEmpty "d" (.pybool false) s0).2.1 "C:\\W" rfl,
   (env_mutations_add_or_set .posix fsEmpty "d" (.pybool false) s0).2.2 dRasterPosix
     (make_extension .posix fsEmpty "d" (.pybool false) s0).2.1 0 rfl⟩

/-! ### C2: priority order of the compiler scan -/

/-- C2: `find_cl_path` prefers the Professional edition over the Community
edition regardless of version numbers (whenever the even-higher-priority
Enterprise edition has no candidates, the Professional head is returned as
long as Professional has any candidate, whatever Community holds), and
within one edition a second-root candidate is at the head only when the
first root yields zero matches. -/
theorem find_cl_priority (fs : FS)
    (hE : edition_paths fs "Enterprise" = [])
    (hP : edition_paths fs "Professional" ≠ []) :
    (∃ p, find_cl_path fs = some p ∧ p ∈ edition_paths fs "Professional") ∧
    (∀ e, fs.glob ("C:\\Program Files" ++ vs_relative_path e) ≠ [] →
      ∃ q, (edition_paths fs e).head? = some q ∧
        q ∈ fs.glob ("C:\\Program Files" ++ vs_relative_path e)) := by
  constructor
  · obtain ⟨q, hq⟩ : ∃ q, (edition_paths fs "Professional").head? = some q := by
      rcases h : edition_paths fs "Professional" with _ | ⟨x, xs⟩
      · exact absurd h hP
      · exact ⟨x, rfl⟩
    refine ⟨q, ?_, head?_mem hq⟩
    unfold find_cl_path editions
    simp [List.filterMap_cons, hE, hq]
  · intro e he
    rcases hs : sortDesc (fs.glob ("C:\\Program Files" ++ vs_relative_path e))
      with _ | ⟨x, xs⟩
    · exact absurd hs (sortDesc_ne_nil he)
    · refine ⟨x, ?_, ?_⟩
      · unfold edition_paths
        rw [hs]
        rfl
      · exact mem_sortDesc.mp (hs ▸ List.mem_cons_self x xs)

/-- A simulated filesystem where the Community edition carries a higher
version (2022) under the first root than the Professional edition (2017),
which only exists under the second root. -/
def fsC2 : FS :=
  ⟨fun pat =>
    if pat = "C:\\Program Files (x86)" ++ vs_relative_path "Professional" then
      ["C:\\Program Files (x86)\\Microsoft Visual Studio\\2017\\Professional\\VC\\Tools\\MSVC\\14.16\\bin\\Hostx64\\x64"]
    else if pat = "C:\\Program Files" ++ vs_relative_path "Community" then
      ["C:\\Program Files\\Microsoft Visual Studio\\2022\\Community\\VC\\Tools\\MSVC\\14.30\\bin\\Hostx64\\x64"]
    else [],
   fun _ => false⟩

/-- Witness for C2: on `fsC2` the Professional 2017 candidate is selected
even though Community 2022 exists, and for the Community edition of a
filesystem whose first root matches, the head candidate is a first-root
path. -/
theorem find_cl_priority_witness :
    (∃ p, find_cl_path fsC2 = some p ∧ p ∈ edition_paths fsC2 "Professional") ∧
    (∃ q, (edition_paths fsC2 "Community").head? = some q ∧
      q ∈ fsC2.glob ("C:\\Program Files" ++ vs_relative_path "Community")) :=
  ⟨(find_cl_priority fsC2 (by decide) (by decide)).1,
   (find_cl_priority fsC2 (by decide) (by decide)).2 "Community" (by decide)⟩

/-! ### C9: the scan runs at most once per batch -/

theorem splitSemisCore_append (a b : List Char) :
    splitSemisCore (a ++ ';' :: b) =
      ((splitSemisCore a).1, (splitSemisCore a).2 ++ splitSemis b) := by
  induction a with
  | nil => rfl
  | cons c cs ih =>
    simp only [List.cons_append, splitSemisCore]
    split <;> simp [splitSemis, ih]

theorem splitSemis_append (a b : List Char) :
    splitSemis (a ++ ';' :: b) = splitSemis a ++ splitSemis b := by
  simp [splitSemis, splitSemisCore_append a b]

theorem splitSemis_no_semi (l : List Char) (h : ';' ∉ l) : splitSemis l = [l] := by
  suffices hc : splitSemisCore l = (l, []) by simp [splitSemis, hc]
  induction l with
  | nil => rfl
  | cons c cs ih =>
    have hcne : ¬ c = ';' := fun hh => h (hh ▸ List.mem_cons_self c cs)
    have hcs : ';' ∉ cs := fun hh => h (List.mem_cons_of_mem c hh)
    simp only [splitSemisCore, ih hcs]
    rw [if_neg hcne]

theorem where_cl_appended (fs : FS) (e : EnvMap) (w p : String)
    (hw : getEnv e "PATH" = some (w ++ (";" ++ p)))
    (hp : fs.dirHasCl p.data = true) (hsemi : ';' ∉ p.data) :
    where_cl fs e = true := by
  unfold where_cl
  rw [hw]
  show ((splitSemis ((w ++ (";" ++ p))).data).any fs.dirHasCl) = true
  rw [show (w ++ (";" ++ p)).data = w.data ++ ';' :: p.data by
        rw [String.data_append, String.data_append]; rfl]
  rw [splitSemis_append, splitSemis_no_semi p.data hsemi]
  simp [hp]

theorem where_cl_mitigate (fs : FS) (b : Bool) (osn : OSName) (s : PState) :
    where_cl fs ((check_and_mitigate b osn s).1).env = where_cl fs s.env := by
  unfold where_cl
  rw [mitigate_path]

/-- C9: the installation-root scan is attempted at most once per variant
batch: it runs only on nt, only when `cl.exe` is not already reachable
from `PATH`, and after a first successful build (which, when it scanned,
appended the located compiler directory to `PATH`) a second build performs
zero scans.  The hypothesis `hfs` states that the scan's result is a real
compiler directory (it contains `cl.exe` and has no `;` in its path). -/
theorem toolchain_scan_memoized (fs : FS) (dn dn2 : String) (g1 g2 : Bool)
    (s : PState) (d1 : ExtensionDescriptor) (s1 : PState) (n1 : Nat)
    (hfs : ∀ p, find_cl_path fs = some p →
      fs.dirHasCl p.data = true ∧ ';' ∉ p.data)
    (h1 : make_extension .nt fs dn (.pybool g1) s = (.ok d1, s1, n1)) :
    n1 ≤ 1 ∧
    (make_extension .nt fs dn2 (.pybool g2) s1).2.2 = 0 ∧
    (∀ osn fs2 dn3 v s2, osn ≠ .nt → (make_extension osn fs2 dn3 v s2).2.2 = 0) ∧
    (∀ fs2 dn3 v s2, where_cl fs2 s2.env = true →
      (make_extension .nt fs2 dn3 v s2).2.2 = 0) := by
  obtain ⟨sl, m, hl, hs1, hn⟩ := make_extension_ok_state .nt fs dn g1 s d1 s1 n1 h1
  have hcl1 : where_cl fs s1.env = true := by
    rw [hs1, where_cl_mitigate]
    rcases locate_toolchain_nt_ok fs s sl m hl with ⟨hcl, rfl, _⟩ |
      ⟨p, w, hf, hw, rfl, _⟩
    · exact hcl
    · exact where_cl_appended fs _ w p (getEnv_setEnv_self _ _ _)
        (hfs p hf).1 (hfs p hf).2
  refine ⟨?_, ?_, ?_, ?_⟩
  · have hm : (locate_toolchain .nt fs s).2 = m := by rw [hl]
    rw [hn, ← hm]
    exact locate_toolchain_count_le .nt fs s
  · rw [make_extension_count_bool, locate_toolchain_on_path fs s1 hcl1]
  · intro osn fs2 dn3 v s2 hosn
    cases v with
    | pybool b => rw [make_extension_count_bool, locate_toolchain_not_nt osn fs2 s2 hosn]
    | pyint n => rfl
    | pystr t => rfl
    | pynone => rfl
  · intro fs2 dn3 v s2 hcl
    cases v with
    | pybool b => rw [make_extension_count_bool, locate_toolchain_on_path fs2 s2 hcl]
    | pyint n => rfl
    | pystr t => rfl
    | pynone => rfl

/-- A simulated filesystem with a single Enterprise candidate `C:\VS`
containing `cl.exe`, while the directory on `env0`'s `PATH` does not. -/
def fsC9 : FS :=
  ⟨fun pat =>
    if pat = "C:\\Program Files" ++ vs_relative_path "Enterprise" then ["C:\\VS"]
    else [],
   fun d2 => decide (d2 = "C:\\VS".data)⟩

/-- Witness for C9: with `fsC9` the first nt build scans once and appends
`C:\VS` to `PATH`; the second build scans zero times, a posix build scans
zero times, and an nt build with `cl.exe` already reachable scans zero
times. -/
theorem toolchain_scan_memoized_witness :
    (1 : Nat) ≤ 1 ∧
    (make_extension .nt fsC9 "e" (.pybool false)
      ((make_extension .nt fsC9 "d" (.pybool true) s0).2.1)).2.2 = 0 ∧
    (make_extension .posix fsC9 "x" .pynone s0).2.2 = 0 ∧
    (make_extension .nt fsCl "x" (.pybool true) s0).2.2 = 0 := by
  have h := toolchain_scan_memoized fsC9 "d" "e" true false s0 dGLnt
    (make_extension .nt fsC9 "d" (.pybool true) s0).2.1 1
    (fun p hp => by
      rw [show find_cl_path fsC9 = some ("C:\\VS") from by decide] at hp
      injection hp with hp2
      subst hp2
      exact ⟨by decide, by decide⟩)
    rfl
  exact ⟨h.1, h.2.1, h.2.2.1 .posix fsC9 "x" .pynone s0 (by decide),
    h.2.2.2 fsCl "x" (.pybool true) s0 (by decide)⟩

end NvdiffrastSetup
